import Mathlib

/-!
Verification development for the Discord Lobbies SDK subprocess bridge
(src/rust-native/src/main.rs).

The bridge reads one JSON command per stdin line, dispatches it in
`handle_command`, and writes one JSON response per line.  Every
asynchronous SDK operation is bridged by a completion flag written by a
C callback and read by a bounded polling loop.

Shallow embedding conventions:
  * JSON values are modelled by the inductive `Json`; JSON numbers are
    restricted to integers (the program only ever produces integral
    numbers, and `as_u64` / `as_i64` accessors only succeed on them).
    Object field order is as written at each construction site; the
    claims are about field values, not serialized byte order.
  * The external vendor SDK is an oracle `SdkEnv`: for each asynchronous
    operation it records whether the completion callback fired within
    the polling deadline and, if so, what data it delivered.  A callback
    can only fire if the operation was actually started (client pointer
    non-null), which the handlers enforce below.
  * Every call into the vendor SDK made by a handler is recorded in a
    `List ExtCall` trace.  `Discord_RunCallbacks` pumping appears once
    per pump site; its timing-dependent repetition count is abstracted.
  * `Mutex::lock` never fails in the single-threaded command loop
    (poisoning requires a panic), so the `Err` branches of `lock()` are
    dead and not modelled.
  * Wall-clock durations are abstracted: "the deadline elapsed without
    the flag being set" is exactly the oracle reporting that the
    callback did not fire (`none` / `false`).
-/

/-- JSON value tree (integral numbers only). -/
inductive Json where
  | null
  | bool (b : Bool)
  | num (n : Int)
  | str (s : String)
  | arr (xs : List Json)
  | obj (fields : List (String × Json))

/-- serde_json `Value::get(key)` on an object. -/
def Json.getField (j : Json) (k : String) : Option Json :=
  match j with
  | .obj fs => fs.lookup k
  | _ => none

/-- serde_json `as_str`. -/
def Json.asStr : Json → Option String
  | .str s => some s
  | _ => none

/-- serde_json `as_u64`: succeeds on integral numbers in the u64 range. -/
def Json.asNatNum : Json → Option Nat
  | .num n => if 0 ≤ n ∧ n < 2 ^ 64 then some n.toNat else none
  | _ => none

/-- serde_json `as_i64`: succeeds on integral numbers in the i64 range. -/
def Json.asIntNum : Json → Option Int
  | .num n => if -(2 ^ 63) ≤ n ∧ n < 2 ^ 63 then some n else none
  | _ => none

/-- serde_json `as_bool`. -/
def Json.asBool : Json → Option Bool
  | .bool b => some b
  | _ => none

/-- Rust `str::parse::<u64>`: optional leading plus sign, at least one
ASCII digit, value within the u64 range. -/
def parseU64 (s : String) : Option Nat :=
  let cs := s.data
  let cs := match cs with
    | '+' :: rest => rest
    | _ => cs
  if cs ≠ [] ∧ cs.all (fun c => c.isDigit) then
    let v := cs.foldl (fun a c => a * 10 + (c.toNat - 48)) 0
    if v < 2 ^ 64 then some v else none
  else none

/-- Rust `str::parse::<i32>`: optional sign, ASCII digits, i32 range. -/
def parseI32 (s : String) : Option Int :=
  let cs := s.data
  let sign : Int := match cs with
    | '-' :: _ => -1
    | _ => 1
  let ds := match cs with
    | '-' :: rest => rest
    | '+' :: rest => rest
    | _ => cs
  if ds ≠ [] ∧ ds.all (fun c => c.isDigit) then
    let v : Int := sign * ((ds.foldl (fun a c => a * 10 + (c.toNat - 48)) 0 : Nat) : Int)
    if -(2 ^ 31) ≤ v ∧ v < 2 ^ 31 then some v else none
  else none

/-- Rust `i64 as i32` two's-complement truncation (used for `limit`). -/
def toI32 (n : Int) : Int := ((n + 2 ^ 31) % 2 ^ 32) - 2 ^ 31

/-- `CString::new` fails iff the string has an interior NUL byte. -/
def hasNulByte (s : String) : Bool := s.data.any (fun c => c.toNat = 0)

/-- Rust `str::len`: UTF-8 byte length (kernel-computable model). -/
def utf8Len (s : String) : Nat :=
  s.data.foldl
    (fun n c =>
      n + (if c.toNat < 128 then 1
           else if c.toNat < 2048 then 2
           else if c.toNat < 65536 then 3
           else 4))
    0

/-- Rust `str::starts_with` on a literal prefix. -/
def strStartsWith (s p : String) : Bool := p.data.isPrefixOf s.data

/-- get_lobby / leave_lobby lobby_id extraction: `as_u64()` first, else
`as_str()` parsed as u64. -/
def numOrStrU64 (v : Json) : Option Nat :=
  match v.asNatNum with
  | some n => some n
  | none => v.asStr.bind parseU64

/-- send_lobby_message lobby_id extraction: match on String (parse) or
Number (`as_u64`). -/
def strOrNumU64 (v : Json) : Option Nat :=
  match v with
  | .str s => parseU64 s
  | .num _ => Json.asNatNum v
  | _ => none

/-- An input line decoded as a `Request` (struct `Request` in main.rs). -/
structure Request where
  id : Nat
  command : String
  args : Option Json

/-- An output line (struct `Response` in main.rs). -/
structure Response where
  id : Nat
  success : Bool
  result : Option Json
  error : Option String

/-- The process-wide mutable state held in the `lazy_static` globals:
CLIENT_PTR, TOKEN (presence), INITIALIZED, CURRENT_STATUS,
CURRENT_APP_ID and MESSAGE_EVENTS. -/
structure BridgeState where
  clientPtr : Nat
  tokenSet : Bool
  initialized : Bool
  currentStatus : Int
  currentAppId : Nat
  messageEvents : List (Nat × String)

/-- One guild channel as delivered by the channels callback. -/
structure ChannelRec where
  id : Nat
  name : String
  ctype : Int

/-- One message handle as read by the message callbacks. -/
structure MsgRec where
  id : Nat
  authorId : Nat
  channelId : Nat
  content : String
  timestamp : Nat

/-- One relationship handle: user id plus the user handle's username
(`none` when `Discord_RelationshipHandle_User` reports no user). -/
structure RelRec where
  id : Nat
  user : Option String

/-- Data delivered by the Authorize callback before the deadline. -/
structure AuthCbRec where
  code : Option String
  redirect : Option String

/-- Data delivered by the GetToken callback before the deadline
(`none` fields model NULL / absent values from the service). -/
structure TokenCbRec where
  accessToken : Option String
  refreshToken : Option String
  expiresIn : Option Int
  tokenType : Option Int

/-- Oracle for the external vendor SDK: for each asynchronous operation,
whether its completion callback fired within the handler's polling
deadline and what it delivered.  `none` / `false` means the deadline
elapsed without the completion flag being set. -/
structure SdkEnv where
  /-- GetUserGuilds: `none` = callback never fired; `some none` = fired
  with a NULL span pointer; `some (some gs)` = fired with a span of
  (guild id, guild name) pairs (possibly empty). -/
  guildsCb : Option (Option (List (Nat × String)))
  /-- GetGuildChannels: `none` = never fired; fired with a NULL or empty
  span is `some []`. -/
  channelsCb : Option (List ChannelRec)
  /-- SendLobbyMessage callback used by the send_message command. -/
  sendMsgCb : Bool
  /-- UpdateRichPresence callback (set_activity). -/
  activityCb : Bool
  /-- GetRelationships span: `none` = NULL pointer. -/
  relationships : Option (List RelRec)
  /-- GetLobbyIds span: `none` = NULL pointer. -/
  lobbyIdsSpan : Option (List Nat)
  /-- GetLobbyHandle + LobbyHandle_Metadata: `none` = handle not found;
  `some md` = found, with the delivered metadata key/value pairs. -/
  getLobbyHandle : Option (List (String × String))
  /-- SendUserMessage callback: the delivered message id. -/
  dmCb : Option Nat
  /-- GetLobbyMessagesWithLimit callback. -/
  lobbyMsgsCb : Option (List MsgRec)
  /-- GetMessageHandle: `none` = not found. -/
  messageHandle : Option MsgRec
  /-- GetUserMessagesWithLimit callback. -/
  userMsgsCb : Option (List MsgRec)
  /-- CreateOrJoinLobbyWithMetadata callback for create_lobby:
  `some none` = fired with a NULL result (lobby id slot stays 0);
  `some (some n)` = fired successfully with lobby id `n`. -/
  createLobbyCb : Option (Option Nat)
  /-- SendLobbyMessage callback for send_lobby_message: the result
  pointer's non-NULL-ness (success flag). -/
  sendLobbyMsgCb : Option Bool
  /-- LeaveLobby callback fired. -/
  leaveLobbyCb : Bool
  /-- CreateOrJoinLobbyWithMetadata callback for create_or_join_lobby:
  the delivered lobby id. -/
  createOrJoinCb : Option Nat
  /-- GetSelfMuteAll return value. -/
  selfMuteAll : Bool
  /-- GetSelfDeafAll return value. -/
  selfDeafAll : Bool
  /-- Whether the connect_lobby_voice completion flag was observed set
  within the deadline. -/
  voiceConnected : Bool
  /-- Authorize callback (initialize, fresh-auth path). -/
  authOutcome : Option AuthCbRec
  /-- GetToken callback (initialize, fresh-auth path). -/
  tokenOutcome : Option TokenCbRec
  /-- Sequence of CURRENT_STATUS values read by the init status-wait
  loop, one per iteration; the list ends when the 30 s deadline fires. -/
  statusTrajectory : List Int

/-- Calls into the vendor SDK, in program order.  `runCallbacks` stands
for a whole pumping loop (its repetition count is timing-dependent). -/
inductive ExtCall where
  | setFreeThreaded
  | clientInit
  | setApplicationId (appId : Nat)
  | setStatusChangedCallback
  | authorize
  | getToken
  | updateToken (tokenType : Int)
  | connect
  | setMessageCreatedCallback
  | runCallbacks
  | getUserGuilds
  | getGuildChannels (guildId : Nat)
  | sendLobbyMessage (lobbyId : Nat) (content : String)
  | updateRichPresence
  | getRelationships
  | getLobbyIds
  | getLobbyHandle (lobbyId : Nat)
  | lobbyHandleMetadata
  | sendUserMessage (recipientId : Nat) (content : String)
  | getLobbyMessagesWithLimit (lobbyId : Nat) (limit : Int)
  | getMessageHandle (messageId : Nat)
  | messageHandleDrop
  | getUserMessagesWithLimit (recipientId : Nat) (limit : Int)
  | createOrJoinLobbyWithMetadata (secret : String)
  | leaveLobby (lobbyId : Nat)
  | setSelfMuteAll (mute : Bool)
  | getSelfMuteAll
  | setSelfDeafAll (deaf : Bool)
  | getSelfDeafAll
  | startCall (channelId : Nat)
  | endCall (channelId : Nat)
  | clientDrop
  deriving DecidableEq

/-- Result of one command handler before the dispatcher wraps it with
the request id: new global state, SDK-call trace, and the
(success, result, error) triple. -/
structure HOut where
  st : BridgeState
  calls : List ExtCall
  ok : Bool
  result : Option Json
  error : Option String

/-- Result of `handle_command`: new state, SDK-call trace, response. -/
structure CmdOut where
  st : BridgeState
  calls : List ExtCall
  resp : Response

/-- Guild entry of the get_guilds success payload (guilds_callback):
NULL/empty names are replaced by "Unknown". -/
def guildJson (g : Nat × String) : Json :=
  .obj [("id", .str (toString g.1)),
        ("name", .str (if g.2.data.isEmpty then "Unknown" else g.2))]

/-- Channel entry of the get_guild_channels success payload. -/
def channelJson (c : ChannelRec) : Json :=
  .obj [("id", .str (toString c.id)),
        ("name", .str (if c.name.data.isEmpty then "Unknown" else c.name)),
        ("type", .num c.ctype)]

/-- Message entry shared by the message-fetching success payloads. -/
def msgJson (m : MsgRec) : Json :=
  .obj [("id", .str (toString m.id)),
        ("author_id", .str (toString m.authorId)),
        ("channel_id", .str (toString m.channelId)),
        ("content", .str m.content),
        ("timestamp", .num (m.timestamp : Int))]

/-- Pending message-event entry of the get_message_events payload. -/
def evJson (e : Nat × String) : Json :=
  .obj [("message_id", .str (toString e.1)), ("timestamp", .str e.2)]

/-- "ping" arm: constant success, no state change, no SDK call. -/
def hPing (st : BridgeState) : HOut :=
  ⟨st, [], true, some (.obj [("pong", .bool true)]), none⟩

/-- Unknown command arm. -/
def hUnknown (st : BridgeState) (cmd : String) : HOut :=
  ⟨st, [], false, none, some ("Unknown: " ++ cmd)⟩

/-- `cleanup()`: drop the client if present, clear token and
INITIALIZED. -/
def cleanup (st : BridgeState) : BridgeState × List ExtCall :=
  (({ st with clientPtr := 0, tokenSet := false, initialized := false }),
   if st.clientPtr ≠ 0 then [ExtCall.clientDrop] else [])

/-- "disconnect" arm: cleanup then unconditional success. -/
def hDisconnect (st : BridgeState) : HOut :=
  let c := cleanup st
  ⟨c.1, c.2, true, some (.obj [("status", .str "disconnected")]), none⟩

/-- "get_guilds" arm (poll deadline 15 s): state guard, client guard,
GetUserGuilds + pump loop; on a NULL span the callback records the
error "Null span pointer"; the success/failure decision is
`fetched.is_empty() && !error.is_empty()`. -/
def hGetGuilds (env : SdkEnv) (st : BridgeState) : HOut :=
  if !st.initialized then ⟨st, [], false, none, some "SDK not initialized"⟩
  else if st.clientPtr = 0 then ⟨st, [], false, none, some "Client not initialized"⟩
  else
    let fetched : List (Nat × String) :=
      match env.guildsCb with
      | some (some gs) => gs
      | _ => []
    let errorMsg : String :=
      match env.guildsCb with
      | some none => "Null span pointer"
      | _ => ""
    let calls : List ExtCall := [.getUserGuilds, .runCallbacks]
    if fetched.isEmpty ∧ errorMsg ≠ "" then
      ⟨st, calls, false, none, some errorMsg⟩
    else
      ⟨st, calls, true, some (.obj [("guilds", .arr (fetched.map guildJson))]), none⟩

/-- "get_guild_channels" arm (poll deadline 5 s). -/
def hGetGuildChannels (env : SdkEnv) (st : BridgeState) (args : Option Json) : HOut :=
  match args with
  | none => ⟨st, [], false, none, some "Missing args"⟩
  | some a =>
    match (a.getField "guild_id").bind Json.asStr with
    | none => ⟨st, [], false, none, some "Missing guild_id"⟩
    | some gidStr =>
      match parseU64 gidStr with
      | none => ⟨st, [], false, none, some "Invalid guild_id"⟩
      | some guildId =>
        if !st.initialized then ⟨st, [], false, none, some "SDK not initialized"⟩
        else
          let started := st.clientPtr ≠ 0
          let calls := (if started then [ExtCall.getGuildChannels guildId] else []) ++ [.runCallbacks]
          match (if started then env.channelsCb else none) with
          | none => ⟨st, calls, false, none, some ("Timeout for guild " ++ toString guildId)⟩
          | some chans =>
              ⟨st, calls, true, some (.obj [("channels", .arr (chans.map channelJson))]), none⟩

/-- "send_message" arm (poll deadline 5 s); the implementation routes
this through Discord_Client_SendLobbyMessage with the channel id. -/
def hSendMessage (env : SdkEnv) (st : BridgeState) (args : Option Json) : HOut :=
  match args with
  | none => ⟨st, [], false, none, some "Missing args"⟩
  | some a =>
    match (a.getField "channel_id").bind Json.asStr, (a.getField "content").bind Json.asStr with
    | some cidStr, some content =>
      match parseU64 cidStr with
      | none => ⟨st, [], false, none, some "Invalid channel_id"⟩
      | some channelId =>
        if !st.initialized then ⟨st, [], false, none, some "SDK not initialized"⟩
        else if hasNulByte content then ⟨st, [], false, none, some "Invalid content"⟩
        else
          let started := st.clientPtr ≠ 0
          let calls := (if started then [ExtCall.sendLobbyMessage channelId content] else []) ++ [.runCallbacks]
          if started && env.sendMsgCb then
            ⟨st, calls, true, some (.obj [("sent", .bool true)]), none⟩
          else
            ⟨st, calls, false, none, some "Message send timeout"⟩
    | _, _ => ⟨st, [], false, none, some "Missing channel_id or content"⟩

/-- "set_activity" arm (poll deadline 3 s): state and details are read
with "" defaults but the SDK is called with a NULL activity. -/
def hSetActivity (env : SdkEnv) (st : BridgeState) (args : Option Json) : HOut :=
  match args with
  | none => ⟨st, [], false, none, some "Missing args"⟩
  | some _ =>
    if !st.initialized then ⟨st, [], false, none, some "SDK not initialized"⟩
    else
      let started := st.clientPtr ≠ 0
      let calls := (if started then [ExtCall.updateRichPresence] else []) ++ [.runCallbacks]
      if started && env.activityCb then
        ⟨st, calls, true, some (.obj [("updated", .bool true)]), none⟩
      else
        ⟨st, calls, false, none, some "Activity update timeout"⟩

/-- Friend entry of the get_relationships payload: relationships whose
user handle is absent are skipped; empty usernames become "Unknown". -/
def relFriends (rels : List RelRec) : List Json :=
  rels.filterMap (fun r =>
    match r.user with
    | some uname =>
        some (.obj [("id", .str (toString r.id)),
                    ("username", .str (if uname.data.isEmpty then "Unknown" else uname))])
    | none => none)

/-- "get_relationships" arm (synchronous span read). -/
def hGetRelationships (env : SdkEnv) (st : BridgeState) : HOut :=
  if !st.initialized then ⟨st, [], false, none, some "SDK not initialized"⟩
  else if st.clientPtr = 0 then ⟨st, [], false, none, some "Client not initialized"⟩
  else
    let friends :=
      match env.relationships with
      | some rels => relFriends rels
      | none => []
    ⟨st, [.getRelationships], true, some (.obj [("friends", .arr friends)]), none⟩

/-- "get_lobby_ids" arm (synchronous span read; ids are copied only for
a non-NULL span with 0 < size < 1000). -/
def hGetLobbyIds (env : SdkEnv) (st : BridgeState) : HOut :=
  if !st.initialized then ⟨st, [], false, none, some "SDK not initialized"⟩
  else if st.clientPtr = 0 then ⟨st, [], false, none, some "Client not initialized"⟩
  else
    let ids : List Json :=
      match env.lobbyIdsSpan with
      | some l => if 0 < l.length ∧ l.length < 1000 then l.map (fun n => Json.str (toString n)) else []
      | none => []
    ⟨st, [.runCallbacks, .getLobbyIds, .runCallbacks], true,
     some (.obj [("lobby_ids", .arr ids)]), none⟩

/-- "get_lobby" arm: the success payload carries `lobby_id` as a raw
JSON number (not a string). -/
def hGetLobby (env : SdkEnv) (st : BridgeState) (args : Option Json) : HOut :=
  let lobbyId := ((args.bind (fun a => a.getField "lobby_id")).bind numOrStrU64).getD 0
  if lobbyId = 0 then ⟨st, [], false, none, some "Invalid lobby ID"⟩
  else if !st.initialized then ⟨st, [], false, none, some "SDK not initialized"⟩
  else if st.clientPtr = 0 then ⟨st, [], false, none, some "Client not initialized"⟩
  else
    match env.getLobbyHandle with
    | none =>
        ⟨st, [.runCallbacks, .getLobbyHandle lobbyId], false, none,
         some ("Failed to get lobby handle for " ++ toString lobbyId)⟩
    | some md =>
        ⟨st, [.runCallbacks, .getLobbyHandle lobbyId, .lobbyHandleMetadata], true,
         some (.obj [("lobby_id", .num (lobbyId : Int)),
                     ("metadata", .obj (md.map (fun kv => (kv.1, Json.str kv.2))))]),
         none⟩

/-- "send_dm" arm (poll deadline 5 s). -/
def hSendDm (env : SdkEnv) (st : BridgeState) (args : Option Json) : HOut :=
  match args with
  | none => ⟨st, [], false, none, some "Missing args"⟩
  | some a =>
    match (a.getField "recipient_id").bind Json.asStr, (a.getField "content").bind Json.asStr with
    | some ridStr, some content =>
      match parseU64 ridStr with
      | none => ⟨st, [], false, none, some "Invalid recipient_id"⟩
      | some recipientId =>
        if !st.initialized then ⟨st, [], false, none, some "SDK not initialized"⟩
        else if hasNulByte content then ⟨st, [], false, none, some "Invalid content"⟩
        else
          let started := st.clientPtr ≠ 0
          let calls := (if started then [ExtCall.sendUserMessage recipientId content] else []) ++ [.runCallbacks]
          match (if started then env.dmCb else none) with
          | some msgId =>
              ⟨st, calls, true, some (.obj [("message_id", .str (toString msgId))]), none⟩
          | none => ⟨st, calls, false, none, some "DM send timeout"⟩
    | _, _ => ⟨st, [], false, none, some "Missing recipient_id or content"⟩

/-- "get_lobby_messages" arm (poll deadline 5 s, limit default 50 cast
to i32). -/
def hGetLobbyMessages (env : SdkEnv) (st : BridgeState) (args : Option Json) : HOut :=
  match args with
  | none => ⟨st, [], false, none, some "Missing args"⟩
  | some a =>
    match (a.getField "lobby_id").bind Json.asStr with
    | none => ⟨st, [], false, none, some "Missing lobby_id"⟩
    | some lidStr =>
      match parseU64 lidStr with
      | none => ⟨st, [], false, none, some "Invalid lobby_id"⟩
      | some lobbyId =>
        if !st.initialized then ⟨st, [], false, none, some "SDK not initialized"⟩
        else
          let limit := toI32 (((a.getField "limit").bind Json.asIntNum).getD 50)
          let started := st.clientPtr ≠ 0
          let calls := (if started then [ExtCall.getLobbyMessagesWithLimit lobbyId limit] else []) ++ [.runCallbacks]
          match (if started then env.lobbyMsgsCb else none) with
          | none => ⟨st, calls, false, none, some "Message fetch timeout"⟩
          | some msgs =>
              ⟨st, calls, true, some (.obj [("messages", .arr (msgs.map msgJson))]), none⟩

/-- "get_message" arm (synchronous handle read). -/
def hGetMessage (env : SdkEnv) (st : BridgeState) (args : Option Json) : HOut :=
  match args with
  | none => ⟨st, [], false, none, some "Missing args"⟩
  | some a =>
    match (a.getField "message_id").bind Json.asStr with
    | none => ⟨st, [], false, none, some "Missing message_id"⟩
    | some midStr =>
      match parseU64 midStr with
      | none => ⟨st, [], false, none, some "Invalid message_id"⟩
      | some messageId =>
        if !st.initialized then ⟨st, [], false, none, some "SDK not initialized"⟩
        else if st.clientPtr = 0 then ⟨st, [], false, none, some "Client not initialized"⟩
        else
          match env.messageHandle with
          | none => ⟨st, [.getMessageHandle messageId], false, none, some "Message not found"⟩
          | some m =>
              ⟨st, [.getMessageHandle messageId, .messageHandleDrop], true,
               some (msgJson m), none⟩

/-- "get_user_messages" arm (poll deadline 10 s). -/
def hGetUserMessages (env : SdkEnv) (st : BridgeState) (args : Option Json) : HOut :=
  match args with
  | none => ⟨st, [], false, none, some "Missing args"⟩
  | some a =>
    match (a.getField "recipient_id").bind Json.asStr with
    | none => ⟨st, [], false, none, some "Missing recipient_id"⟩
    | some ridStr =>
      match parseU64 ridStr with
      | none => ⟨st, [], false, none, some "Invalid recipient_id"⟩
      | some recipientId =>
        if !st.initialized then ⟨st, [], false, none, some "SDK not initialized"⟩
        else
          let limit := toI32 (((a.getField "limit").bind Json.asIntNum).getD 50)
          let started := st.clientPtr ≠ 0
          let calls := (if started then [ExtCall.getUserMessagesWithLimit recipientId limit] else []) ++ [.runCallbacks]
          match (if started then env.userMsgsCb else none) with
          | none => ⟨st, calls, false, none, some "Message fetch timeout"⟩
          | some msgs =>
              ⟨st, calls, true, some (.obj [("messages", .arr (msgs.map msgJson))]), none⟩

/-- "create_lobby" arm (poll deadline 10 s): secret, title and
description all default to "" when missing — no validation failure. -/
def hCreateLobby (env : SdkEnv) (st : BridgeState) (args : Option Json) : HOut :=
  let secret := (((args.bind (fun a => a.getField "secret")).bind Json.asStr)).getD ""
  if !st.initialized then ⟨st, [], false, none, some "SDK not initialized"⟩
  else
    let started := st.clientPtr ≠ 0
    let calls := (if started then [ExtCall.createOrJoinLobbyWithMetadata secret] else []) ++ [.runCallbacks]
    match (if started then env.createLobbyCb else none) with
    | none => ⟨st, calls, false, none, some "Lobby creation timeout"⟩
    | some r =>
        let lobbyId := match r with | some n => n | none => 0
        ⟨st, calls, true, some (.obj [("lobby_id", .str (toString lobbyId))]), none⟩

/-- "send_lobby_message" arm (poll deadline 15 s; an extra 5 s pump
follows a successful send): content defaults to "" when missing. -/
def hSendLobbyMessage (env : SdkEnv) (st : BridgeState) (args : Option Json) : HOut :=
  let lobbyId := ((args.bind (fun a => a.getField "lobby_id")).bind strOrNumU64).getD 0
  let content := ((args.bind (fun a => a.getField "content")).bind Json.asStr).getD ""
  if !st.initialized then ⟨st, [], false, none, some "SDK not initialized"⟩
  else if lobbyId = 0 then ⟨st, [], false, none, some "Invalid lobby ID"⟩
  else
    let started := st.clientPtr ≠ 0
    let calls := (if started then [ExtCall.sendLobbyMessage lobbyId content] else []) ++ [.runCallbacks]
    match (if started then env.sendLobbyMsgCb else none) with
    | none => ⟨st, calls, false, none, some "Send message timeout - callback never fired"⟩
    | some false => ⟨st, calls, false, none, some "Discord SDK returned error result for SendLobbyMessage"⟩
    | some true => ⟨st, calls ++ [.runCallbacks], true, some (.obj [("sent", .bool true)]), none⟩

/-- "leave_lobby" arm (poll deadline 5 s). -/
def hLeaveLobby (env : SdkEnv) (st : BridgeState) (args : Option Json) : HOut :=
  let lobbyId := ((args.bind (fun a => a.getField "lobby_id")).bind numOrStrU64).getD 0
  if !st.initialized then ⟨st, [], false, none, some "SDK not initialized"⟩
  else if lobbyId = 0 then ⟨st, [], false, none, some "Invalid lobby ID"⟩
  else
    let started := st.clientPtr ≠ 0
    let calls := (if started then [ExtCall.leaveLobby lobbyId] else []) ++ [.runCallbacks]
    if started && env.leaveLobbyCb then
      ⟨st, calls, true, some (.obj [("left", .bool true)]), none⟩
    else
      ⟨st, calls, false, none, some "Leave lobby timeout"⟩

/-- "set_mute" arm: `mute` defaults to `false` when missing or not a
boolean — no validation failure, the SDK setter is always called. -/
def hSetMute (st : BridgeState) (args : Option Json) : HOut :=
  let mute := ((args.bind (fun a => a.getField "mute")).bind Json.asBool).getD false
  if !st.initialized then ⟨st, [], false, none, some "SDK not initialized"⟩
  else
    let calls := if st.clientPtr ≠ 0 then [ExtCall.setSelfMuteAll mute, .runCallbacks] else []
    ⟨st, calls, true, some (.obj [("muted", .bool mute)]), none⟩

/-- "set_deaf" arm: same default-and-proceed shape as set_mute. -/
def hSetDeaf (st : BridgeState) (args : Option Json) : HOut :=
  let deaf := ((args.bind (fun a => a.getField "deaf")).bind Json.asBool).getD false
  if !st.initialized then ⟨st, [], false, none, some "SDK not initialized"⟩
  else
    let calls := if st.clientPtr ≠ 0 then [ExtCall.setSelfDeafAll deaf, .runCallbacks] else []
    ⟨st, calls, true, some (.obj [("deafened", .bool deaf)]), none⟩

/-- "get_mute_status" arm. -/
def hGetMuteStatus (env : SdkEnv) (st : BridgeState) : HOut :=
  if !st.initialized then ⟨st, [], false, none, some "SDK not initialized"⟩
  else
    let muted := if st.clientPtr ≠ 0 then env.selfMuteAll else false
    let calls := if st.clientPtr ≠ 0 then [ExtCall.getSelfMuteAll, .runCallbacks] else []
    ⟨st, calls, true, some (.obj [("muted", .bool muted)]), none⟩

/-- "get_deaf_status" arm. -/
def hGetDeafStatus (env : SdkEnv) (st : BridgeState) : HOut :=
  if !st.initialized then ⟨st, [], false, none, some "SDK not initialized"⟩
  else
    let deafened := if st.clientPtr ≠ 0 then env.selfDeafAll else false
    let calls := if st.clientPtr ≠ 0 then [ExtCall.getSelfDeafAll, .runCallbacks] else []
    ⟨st, calls, true, some (.obj [("deafened", .bool deafened)]), none⟩

/-- "connect_lobby_voice" arm (poll deadline 10 s): after the wait the
response is always success=true, reporting the flag's value in the
`connected` and `callback_fired` payload fields. -/
def hConnectLobbyVoice (env : SdkEnv) (st : BridgeState) (args : Option Json) : HOut :=
  match args with
  | none => ⟨st, [], false, none, some "Missing arguments"⟩
  | some a =>
    match (a.getField "lobby_id").bind Json.asStr with
    | none => ⟨st, [], false, none, some "Missing lobby_id argument"⟩
    | some lidStr =>
      match parseU64 lidStr with
      | none => ⟨st, [], false, none, some "Invalid lobby ID"⟩
      | some lobbyId =>
        if !st.initialized then ⟨st, [], false, none, some "SDK not initialized"⟩
        else if st.clientPtr = 0 then ⟨st, [], false, none, some "Client not initialized"⟩
        else
          let connected := env.voiceConnected
          ⟨st, [.startCall lobbyId, .runCallbacks], true,
           some (.obj [("connected", .bool connected), ("callback_fired", .bool connected)]),
           none⟩

/-- "disconnect_lobby_voice" arm: pumps for a fixed 10 s window and then
always reports success with `disconnected: true` (the callback's
outcome is never consulted). -/
def hDisconnectLobbyVoice (st : BridgeState) (args : Option Json) : HOut :=
  match args with
  | none => ⟨st, [], false, none, some "Missing arguments"⟩
  | some a =>
    match (a.getField "lobby_id").bind Json.asStr with
    | none => ⟨st, [], false, none, some "Missing lobby_id argument"⟩
    | some lidStr =>
      match parseU64 lidStr with
      | none => ⟨st, [], false, none, some "Invalid lobby ID"⟩
      | some lobbyId =>
        if !st.initialized then ⟨st, [], false, none, some "SDK not initialized"⟩
        else
          let calls := (if st.clientPtr ≠ 0 then [ExtCall.endCall lobbyId] else []) ++ [.runCallbacks]
          ⟨st, calls, true, some (.obj [("disconnected", .bool true)]), none⟩

/-- "get_message_events" arm: no state guard at all — drains the
MESSAGE_EVENTS queue and always succeeds. -/
def hGetMessageEvents (st : BridgeState) : HOut :=
  let events := st.messageEvents
  let st2 := { st with messageEvents := [] }
  if events.isEmpty then
    ⟨st2, [], true, some (.obj [("messages", .arr [])]), none⟩
  else
    ⟨st2, [], true, some (.obj [("messages", .arr (events.map evJson))]), none⟩

/-- "create_or_join_lobby" arm (poll deadline 10 s): unlike
create_lobby, this one rejects an empty secret. -/
def hCreateOrJoinLobby (env : SdkEnv) (st : BridgeState) (args : Option Json) : HOut :=
  let secret := ((args.bind (fun a => a.getField "secret")).bind Json.asStr).getD ""
  if !st.initialized then ⟨st, [], false, none, some "SDK not initialized"⟩
  else if secret.data.isEmpty then ⟨st, [], false, none, some "Lobby secret required"⟩
  else
    let started := st.clientPtr ≠ 0
    let calls := (if started then [ExtCall.createOrJoinLobbyWithMetadata secret] else []) ++ [.runCallbacks]
    match (if started then env.createOrJoinCb else none) with
    | none => ⟨st, calls, false, none, some "Lobby operation timeout"⟩
    | some n =>
        if n > 0 then
          ⟨st, calls, true, some (.obj [("lobby_id", .str (toString n))]), none⟩
        else
          ⟨st, calls, false, none, some "Failed to create/join lobby"⟩

/-- Outcome of the init status-wait loop. -/
inductive ConnectOutcome where
  | ready (status : Int)
  | err4004
  | timeout (finalStatus : Int)
  deriving DecidableEq

/-- Whether the outcome is the error-4004 fatal failure. -/
def ConnectOutcome.isErr4004 : ConnectOutcome → Bool
  | .err4004 => true
  | _ => false

/-- One-to-one transcription of the 30 s status-wait loop of
`init_discord_sdk` (both token paths use the identical loop): each
iteration reads CURRENT_STATUS (the next element of `reads`), updates
`last_status` when the value changed, returns ready on status >= 3,
and — crucially, only after `last_status` has already been updated —
tests `status == 0 && last_status == 2` to set `error_4004_seen`.
`cur` is the most recently read CURRENT_STATUS value, reported by the
post-loop read when the deadline fires. -/
def connectWaitGo : List Int → Int → Bool → Int → ConnectOutcome
  | [], _, seen, cur => if seen then .err4004 else .timeout cur
  | s :: rest, lastStatus, seen, _ =>
      let last2 := if s ≠ lastStatus then s else lastStatus
      if s ≥ 3 then .ready s
      else
        let seen2 := if s = 0 ∧ last2 = 2 then true else seen
        connectWaitGo rest last2 seen2 s

/-- The status-wait loop started with `last_status = 0` and
`error_4004_seen = false`, as in both call sites. -/
def connectWait (reads : List Int) (initialCur : Int) : ConnectOutcome :=
  connectWaitGo reads 0 false initialCur

/-- Result of `init_discord_sdk`: updated globals, SDK-call trace, and
`Ok msg` / `Err msg` exactly as the Rust function returns. -/
structure InitOut where
  st : BridgeState
  calls : List ExtCall
  result : Except String String

/-- Shared tail of both init paths: Connect has been called and
CLIENT_PTR / TOKEN are set; run the status-wait loop and translate its
outcome into the function's return value.  On success INITIALIZED is
set; on failure it stays false but CLIENT_PTR remains set. -/
def finishConnectWait (env : SdkEnv) (st : BridgeState) (calls : List ExtCall) : InitOut :=
  match connectWait env.statusTrajectory st.currentStatus with
  | .ready s =>
      ⟨{ st with initialized := true, currentStatus := s }, calls ++ [.runCallbacks],
       .ok "initialized"⟩
  | .err4004 =>
      ⟨st, calls ++ [.runCallbacks],
       .error "SDK error 4004 - app not configured for SDK in Developer Portal"⟩
  | .timeout f =>
      ⟨{ st with currentStatus := f }, calls ++ [.runCallbacks],
       .error ("SDK connection timeout - stuck at status=" ++ toString f)⟩

/-- Split a character list at its first colon. -/
def splitAtColon : List Char → Option (List Char × List Char)
  | [] => none
  | c :: rest =>
      if c = ':' then some ([], rest)
      else
        match splitAtColon rest with
        | some (a, b) => some (c :: a, b)
        | none => none

/-- Stored-token format parsing: "type=1:accesstoken..." yields the
parsed type (default 1 on parse failure or malformed format) and the
token text; a legacy token without the prefix defaults to Bearer (1). -/
def parseStoredToken (token : String) : Int × String :=
  if strStartsWith token "type=" then
    match splitAtColon (token.data.drop 5) with
    | some (tyChars, restChars) =>
        ((parseI32 (String.mk tyChars)).getD 1, String.mk restChars)
    | none => (1, token)
  else (1, token)

/-- `init_discord_sdk(token, app_id)`.  The fresh-authorization path's
PKCE material and the OAuth token echo to stderr carry no result data
and are not modelled beyond the callback outcomes. -/
def init_discord_sdk (env : SdkEnv) (st : BridgeState) (token : String) (appId : Nat) : InitOut :=
  let calls0 : List ExtCall := [.setFreeThreaded, .clientInit]
  if appId = 0 then ⟨st, calls0, .error "No application ID provided"⟩
  else
    let st1 := { st with currentAppId := appId }
    let calls1 := calls0 ++ [.setApplicationId appId, .setStatusChangedCallback]
    if token ≠ "SDK_AUTH_REQUIRED" ∧ utf8Len token > 20 then
      -- stored-token path
      let p := parseStoredToken token
      if hasNulByte p.2 then ⟨st1, calls1, .error "Invalid token string"⟩
      else
        let calls2 := calls1 ++ [.updateToken p.1, .runCallbacks]
        if token.data.isEmpty then ⟨st1, calls2, .error "Token is empty"⟩
        else if utf8Len token < 20 then
          ⟨st1, calls2, .error "Token appears malformed (too short)"⟩
        else
          let st2 := { st1 with tokenSet := true, clientPtr := 1 }
          finishConnectWait env st2 (calls2 ++ [.connect, .setMessageCreatedCallback])
    else
      -- fresh authorization (PKCE) path
      let calls2 := calls1 ++ [.authorize, .runCallbacks]
      match env.authOutcome with
      | none => ⟨st1, calls2, .error "Authorization timeout"⟩
      | some auth =>
        match auth.code with
        | none => ⟨st1, calls2, .error "No authorization code received"⟩
        | some _ =>
          let calls3 := calls2 ++ [.getToken, .runCallbacks]
          match env.tokenOutcome with
          | none => ⟨st1, calls3, .error "GetToken timeout"⟩
          | some t =>
            match t.accessToken with
            | none => ⟨st1, calls3, .error "No access token received"⟩
            | some access =>
              if hasNulByte access then ⟨st1, calls3, .error "Invalid token string"⟩
              else
                let calls4 := calls3 ++ [.updateToken (t.tokenType.getD 1), .runCallbacks]
                if access.data.isEmpty then ⟨st1, calls4, .error "Access token is empty"⟩
                else if utf8Len access < 20 then
                  ⟨st1, calls4, .error "Access token appears malformed (too short)"⟩
                else
                  let st2 := { st1 with tokenSet := true, clientPtr := 1 }
                  finishConnectWait env st2 (calls4 ++ [.runCallbacks, .connect, .runCallbacks])

/-- "initialize" arm: requires args and a token string; app_id is an
optional decimal string defaulting to 0. -/
def hInitialize (env : SdkEnv) (st : BridgeState) (args : Option Json) : HOut :=
  match args with
  | none => ⟨st, [], false, none, some "Missing args"⟩
  | some a =>
    match (a.getField "token").bind Json.asStr with
    | none => ⟨st, [], false, none, some "Missing token"⟩
    | some token =>
      let appId := (((a.getField "app_id").bind Json.asStr).bind parseU64).getD 0
      let io := init_discord_sdk env st token appId
      match io.result with
      | .ok msg => ⟨io.st, io.calls, true, some (.obj [("status", .str msg)]), none⟩
      | .error e => ⟨io.st, io.calls, false, none, some e⟩

/-- Command dispatch: the `match req.command` of `handle_command`. -/
def dispatch (env : SdkEnv) (st : BridgeState) (req : Request) : HOut :=
  if req.command = "initialize" then hInitialize env st req.args
  else if req.command = "disconnect" then hDisconnect st
  else if req.command = "get_guilds" then hGetGuilds env st
  else if req.command = "get_guild_channels" then hGetGuildChannels env st req.args
  else if req.command = "send_message" then hSendMessage env st req.args
  else if req.command = "set_activity" then hSetActivity env st req.args
  else if req.command = "get_relationships" then hGetRelationships env st
  else if req.command = "get_lobby_ids" then hGetLobbyIds env st
  else if req.command = "get_lobby" then hGetLobby env st req.args
  else if req.command = "send_dm" then hSendDm env st req.args
  else if req.command = "get_lobby_messages" then hGetLobbyMessages env st req.args
  else if req.command = "get_message" then hGetMessage env st req.args
  else if req.command = "get_user_messages" then hGetUserMessages env st req.args
  else if req.command = "create_lobby" then hCreateLobby env st req.args
  else if req.command = "send_lobby_message" then hSendLobbyMessage env st req.args
  else if req.command = "leave_lobby" then hLeaveLobby env st req.args
  else if req.command = "set_mute" then hSetMute st req.args
  else if req.command = "set_deaf" then hSetDeaf st req.args
  else if req.command = "get_mute_status" then hGetMuteStatus env st
  else if req.command = "get_deaf_status" then hGetDeafStatus env st
  else if req.command = "connect_lobby_voice" then hConnectLobbyVoice env st req.args
  else if req.command = "disconnect_lobby_voice" then hDisconnectLobbyVoice st req.args
  else if req.command = "get_message_events" then hGetMessageEvents st
  else if req.command = "create_or_join_lobby" then hCreateOrJoinLobby env st req.args
  else if req.command = "ping" then hPing st
  else hUnknown st req.command

/-- `handle_command`: dispatch, then wrap the handler's
(success, result, error) triple into a Response carrying the request
id (main.rs lines 2064-2069; the handful of early `return Response`
sites in the source build the identical value directly). -/
def handle_command (env : SdkEnv) (st : BridgeState) (req : Request) : CmdOut :=
  let o := dispatch env st req
  ⟨o.st, o.calls, { id := req.id, success := o.ok, result := o.result, error := o.error }⟩

/-- Rust `str::trim`: strip whitespace from both ends. -/
def strTrim (s : String) : String :=
  String.mk (((s.data.dropWhile Char.isWhitespace).reverse.dropWhile Char.isWhitespace).reverse)

/-- One iteration of the main loop for one input line: blank (after
trimming) lines are skipped; an unparsable line logs a diagnostic to
stderr and emits nothing; a parsed Request is handled and exactly its
one Response is emitted.  JSON decoding by serde is abstracted as the
`parse` parameter. -/
def processLine (parse : String → Option Request) (env : SdkEnv)
    (st : BridgeState) (line : String) : BridgeState × List Response :=
  if ((strTrim line).data).isEmpty then (st, [])
  else
    match parse (strTrim line) with
    | none => (st, [])
    | some req =>
        let o := handle_command env st req
        (o.st, [o.resp])

/-- The main command loop over a list of input lines, threading the
global state and concatenating the emitted responses in order. -/
def processLines (parse : String → Option Request) (env : SdkEnv)
    (st : BridgeState) : List String → BridgeState × List Response
  | [] => (st, [])
  | l :: rest =>
      let p := processLine parse env st l
      let q := processLines parse env p.1 rest
      (q.1, p.2 ++ q.2)

/-- Oracle in which no completion callback ever fires within its
deadline: every polling loop runs to its deadline. -/
def envSilent : SdkEnv where
  guildsCb := none
  channelsCb := none
  sendMsgCb := false
  activityCb := false
  relationships := none
  lobbyIdsSpan := none
  getLobbyHandle := none
  dmCb := none
  lobbyMsgsCb := none
  messageHandle := none
  userMsgsCb := none
  createLobbyCb := none
  sendLobbyMsgCb := none
  leaveLobbyCb := false
  createOrJoinCb := none
  selfMuteAll := false
  selfDeafAll := false
  voiceConnected := false
  authOutcome := none
  tokenOutcome := none
  statusTrajectory := []

/-- Fresh-process state: the globals as first initialized. -/
def stUninit : BridgeState where
  clientPtr := 0
  tokenSet := false
  initialized := false
  currentStatus := 0
  currentAppId := 0
  messageEvents := []

/-- State after a successful initialize: client pointer set, token
stored, INITIALIZED true, status Ready. -/
def stReady : BridgeState where
  clientPtr := 1
  tokenSet := true
  initialized := true
  currentStatus := 3
  currentAppId := 8
  messageEvents := []

/-- Well-formedness of a handler triple: success excludes an error
message, failure excludes a result payload. -/
def houtOk (o : HOut) : Bool := (o.ok && o.error.isNone) || (!o.ok && o.result.isNone)

/-- Well-formedness of a Response: success=true forces error=null and
success=false forces result=null. -/
def respOk (r : Response) : Bool :=
  (r.success && r.error.isNone) || (!r.success && r.result.isNone)

theorem hPing_ok (st : BridgeState) : houtOk (hPing st) = true := rfl

theorem hUnknown_ok (st : BridgeState) (c : String) : houtOk (hUnknown st c) = true := rfl

theorem hDisconnect_ok (st : BridgeState) : houtOk (hDisconnect st) = true := rfl

theorem hGetGuilds_ok (env : SdkEnv) (st : BridgeState) : houtOk (hGetGuilds env st) = true := by
  unfold hGetGuilds
  try dsimp only
  repeat' split
  all_goals rfl

theorem hGetGuildChannels_ok (env : SdkEnv) (st : BridgeState) (args : Option Json) :
    houtOk (hGetGuildChannels env st args) = true := by
  unfold hGetGuildChannels
  try dsimp only
  repeat' split
  all_goals rfl

theorem hSendMessage_ok (env : SdkEnv) (st : BridgeState) (args : Option Json) :
    houtOk (hSendMessage env st args) = true := by
  unfold hSendMessage
  try dsimp only
  repeat' split
  all_goals rfl

theorem hSetActivity_ok (env : SdkEnv) (st : BridgeState) (args : Option Json) :
    houtOk (hSetActivity env st args) = true := by
  unfold hSetActivity
  try dsimp only
  repeat' split
  all_goals rfl

theorem hGetRelationships_ok (env : SdkEnv) (st : BridgeState) :
    houtOk (hGetRelationships env st) = true := by
  unfold hGetRelationships
  try dsimp only
  repeat' split
  all_goals rfl

theorem hGetLobbyIds_ok (env : SdkEnv) (st : BridgeState) :
    houtOk (hGetLobbyIds env st) = true := by
  unfold hGetLobbyIds
  try dsimp only
  repeat' split
  all_goals rfl

theorem hGetLobby_ok (env : SdkEnv) (st : BridgeState) (args : Option Json) :
    houtOk (hGetLobby env st args) = true := by
  unfold hGetLobby
  try dsimp only
  repeat' split
  all_goals rfl

theorem hSendDm_ok (env : SdkEnv) (st : BridgeState) (args : Option Json) :
    houtOk (hSendDm env st args) = true := by
  unfold hSendDm
  try dsimp only
  repeat' split
  all_goals rfl

theorem hGetLobbyMessages_ok (env : SdkEnv) (st : BridgeState) (args : Option Json) :
    houtOk (hGetLobbyMessages env st args) = true := by
  unfold hGetLobbyMessages
  try dsimp only
  repeat' split
  all_goals rfl

theorem hGetMessage_ok (env : SdkEnv) (st : BridgeState) (args : Option Json) :
    houtOk (hGetMessage env st args) = true := by
  unfold hGetMessage
  try dsimp only
  repeat' split
  all_goals rfl

theorem hGetUserMessages_ok (env : SdkEnv) (st : BridgeState) (args : Option Json) :
    houtOk (hGetUserMessages env st args) = true := by
  unfold hGetUserMessages
  try dsimp only
  repeat' split
  all_goals rfl

theorem hCreateLobby_ok (env : SdkEnv) (st : BridgeState) (args : Option Json) :
    houtOk (hCreateLobby env st args) = true := by
  unfold hCreateLobby
  try dsimp only
  repeat' split
  all_goals rfl

theorem hSendLobbyMessage_ok (env : SdkEnv) (st : BridgeState) (args : Option Json) :
    houtOk (hSendLobbyMessage env st args) = true := by
  unfold hSendLobbyMessage
  try dsimp only
  repeat' split
  all_goals rfl

theorem hLeaveLobby_ok (env : SdkEnv) (st : BridgeState) (args : Option Json) :
    houtOk (hLeaveLobby env st args) = true := by
  unfold hLeaveLobby
  try dsimp only
  repeat' split
  all_goals rfl

theorem hSetMute_ok (st : BridgeState) (args : Option Json) :
    houtOk (hSetMute st args) = true := by
  unfold hSetMute
  try dsimp only
  repeat' split
  all_goals rfl

theorem hSetDeaf_ok (st : BridgeState) (args : Option Json) :
    houtOk (hSetDeaf st args) = true := by
  unfold hSetDeaf
  try dsimp only
  repeat' split
  all_goals rfl

theorem hGetMuteStatus_ok (env : SdkEnv) (st : BridgeState) :
    houtOk (hGetMuteStatus env st) = true := by
  unfold hGetMuteStatus
  try dsimp only
  repeat' split
  all_goals rfl

theorem hGetDeafStatus_ok (env : SdkEnv) (st : BridgeState) :
    houtOk (hGetDeafStatus env st) = true := by
  unfold hGetDeafStatus
  try dsimp only
  repeat' split
  all_goals rfl

theorem hConnectLobbyVoice_ok (env : SdkEnv) (st : BridgeState) (args : Option Json) :
    houtOk (hConnectLobbyVoice env st args) = true := by
  unfold hConnectLobbyVoice
  try dsimp only
  repeat' split
  all_goals rfl

theorem hDisconnectLobbyVoice_ok (st : BridgeState) (args : Option Json) :
    houtOk (hDisconnectLobbyVoice st args) = true := by
  unfold hDisconnectLobbyVoice
  try dsimp only
  repeat' split
  all_goals rfl

theorem hGetMessageEvents_ok (st : BridgeState) :
    houtOk (hGetMessageEvents st) = true := by
  unfold hGetMessageEvents
  try dsimp only
  repeat' split
  all_goals rfl

theorem hCreateOrJoinLobby_ok (env : SdkEnv) (st : BridgeState) (args : Option Json) :
    houtOk (hCreateOrJoinLobby env st args) = true := by
  unfold hCreateOrJoinLobby
  try dsimp only
  repeat' split
  all_goals rfl

theorem hInitialize_ok (env : SdkEnv) (st : BridgeState) (args : Option Json) :
    houtOk (hInitialize env st args) = true := by
  unfold hInitialize
  try dsimp only
  repeat' split
  all_goals rfl

theorem houtOk_ite (c : Prop) [Decidable c] (a b : HOut)
    (ha : houtOk a = true) (hb : houtOk b = true) : houtOk (if c then a else b) = true := by
  by_cases h : c
  · simpa [h] using ha
  · simpa [h] using hb

theorem dispatch_ok (env : SdkEnv) (st : BridgeState) (req : Request) :
    houtOk (dispatch env st req) = true := by
  delta dispatch
  refine houtOk_ite _ _ _ (hInitialize_ok _ _ _) ?_
  refine houtOk_ite _ _ _ (hDisconnect_ok _) ?_
  refine houtOk_ite _ _ _ (hGetGuilds_ok _ _) ?_
  refine houtOk_ite _ _ _ (hGetGuildChannels_ok _ _ _) ?_
  refine houtOk_ite _ _ _ (hSendMessage_ok _ _ _) ?_
  refine houtOk_ite _ _ _ (hSetActivity_ok _ _ _) ?_
  refine houtOk_ite _ _ _ (hGetRelationships_ok _ _) ?_
  refine houtOk_ite _ _ _ (hGetLobbyIds_ok _ _) ?_
  refine houtOk_ite _ _ _ (hGetLobby_ok _ _ _) ?_
  refine houtOk_ite _ _ _ (hSendDm_ok _ _ _) ?_
  refine houtOk_ite _ _ _ (hGetLobbyMessages_ok _ _ _) ?_
  refine houtOk_ite _ _ _ (hGetMessage_ok _ _ _) ?_
  refine houtOk_ite _ _ _ (hGetUserMessages_ok _ _ _) ?_
  refine houtOk_ite _ _ _ (hCreateLobby_ok _ _ _) ?_
  refine houtOk_ite _ _ _ (hSendLobbyMessage_ok _ _ _) ?_
  refine houtOk_ite _ _ _ (hLeaveLobby_ok _ _ _) ?_
  refine houtOk_ite _ _ _ (hSetMute_ok _ _) ?_
  refine houtOk_ite _ _ _ (hSetDeaf_ok _ _) ?_
  refine houtOk_ite _ _ _ (hGetMuteStatus_ok _ _) ?_
  refine houtOk_ite _ _ _ (hGetDeafStatus_ok _ _) ?_
  refine houtOk_ite _ _ _ (hConnectLobbyVoice_ok _ _ _) ?_
  refine houtOk_ite _ _ _ (hDisconnectLobbyVoice_ok _ _) ?_
  refine houtOk_ite _ _ _ (hGetMessageEvents_ok _) ?_
  refine houtOk_ite _ _ _ (hCreateOrJoinLobby_ok _ _ _) ?_
  refine houtOk_ite _ _ _ (hPing_ok _) ?_
  exact hUnknown_ok _ _

/-- Claim C9: every Response produced by the command dispatcher
satisfies the exclusivity invariant — if success is true then error is
null, and if success is false then result is null; the triple is
always (true, payload, null) or (false, null, message). -/
theorem c9_response_success_error_exclusive (env : SdkEnv) (st : BridgeState) (req : Request) :
    respOk (handle_command env st req).resp = true :=
  dispatch_ok env st req

/-- Claim C8: a "ping" command, in any session state whatsoever and
with any arguments, returns success=true with result pong=true, makes
no SDK call, and leaves the session state unchanged; since the state
is returned untouched and the response is a constant, any number of
repetitions behaves identically. -/
theorem c8_ping_constant_and_stateless (env : SdkEnv) (st : BridgeState) (i : Nat) (args : Option Json) :
    handle_command env st ⟨i, "ping", args⟩ =
      ⟨st, [], { id := i, success := true,
                 result := some (.obj [("pong", .bool true)]), error := none }⟩ := rfl

/-- Claim C1: an input line that parses as a Request yields exactly one
Response (a one-element output for that line), and that Response
carries the request's id. -/
theorem c1_parsed_line_one_response_same_id
    (parse : String → Option Request) (env : SdkEnv) (st : BridgeState)
    (line : String) (req : Request)
    (hne : ((strTrim line).data).isEmpty = false)
    (hp : parse (strTrim line) = some req) :
    (processLine parse env st line).2 = [(handle_command env st req).resp] ∧
    (handle_command env st req).resp.id = req.id := by
  constructor
  · simp [processLine, hne, hp]
  · rfl

theorem c1_witness :
    (processLine (fun _ => some ⟨7, "ping", none⟩) envSilent stUninit "x").2 =
      [(handle_command envSilent stUninit ⟨7, "ping", none⟩).resp] ∧
    (handle_command envSilent stUninit ⟨7, "ping", none⟩).resp.id = 7 :=
  c1_parsed_line_one_response_same_id (fun _ => some ⟨7, "ping", none⟩)
    envSilent stUninit "x" ⟨7, "ping", none⟩ (by decide) rfl

/-- Claim C4: a line that is blank after trimming, or that fails to
parse as a Request, contributes zero Responses and the command loop
continues with the remaining lines exactly as if the bad line were
absent. -/
theorem c4_bad_line_skipped
    (parse : String → Option Request) (env : SdkEnv) (st : BridgeState)
    (line : String) (rest : List String)
    (h : ((strTrim line).data).isEmpty = true ∨ parse (strTrim line) = none) :
    processLines parse env st (line :: rest) = processLines parse env st rest := by
  have hpl : processLine parse env st line = (st, []) := by
    by_cases he : ((strTrim line).data).isEmpty = true
    · simp [processLine, he]
    · rcases h with h | h
      · exact absurd h he
      · simp [processLine, he, h]
  simp [processLines, hpl]

theorem c4_witness :
    processLines (fun _ => none) envSilent stUninit ["garbage line", "another"] =
      processLines (fun _ => none) envSilent stUninit ["another"] :=
  c4_bad_line_skipped (fun _ => none) envSilent stUninit "garbage line" ["another"]
    (Or.inr rfl)

/-- Claim C3: a session-dependent command issued while INITIALIZED is
false — get_guilds with any arguments, and send_message with
well-formed arguments — returns success=false with the state-error
message "SDK not initialized", and the external-SDK call trace of that
command is empty. -/
theorem c3_uninitialized_state_guard
    (env : SdkEnv) (st : BridgeState) (i1 i2 : Nat) (args : Option Json)
    (a : Json) (cid content : String) (cn : Nat)
    (hinit : st.initialized = false)
    (hcid : (a.getField "channel_id").bind Json.asStr = some cid)
    (hcontent : (a.getField "content").bind Json.asStr = some content)
    (hparse : parseU64 cid = some cn) :
    handle_command env st ⟨i1, "get_guilds", args⟩ =
      ⟨st, [], { id := i1, success := false, result := none,
                 error := some "SDK not initialized" }⟩ ∧
    handle_command env st ⟨i2, "send_message", some a⟩ =
      ⟨st, [], { id := i2, success := false, result := none,
                 error := some "SDK not initialized" }⟩ := by
  constructor
  · simp [handle_command, dispatch, hGetGuilds, hinit]
  · simp [handle_command, dispatch, hSendMessage, hinit, hcid, hcontent, hparse]

theorem c3_witness :
    handle_command envSilent stUninit ⟨1, "get_guilds", none⟩ =
      ⟨stUninit, [], { id := 1, success := false, result := none,
                       error := some "SDK not initialized" }⟩ ∧
    handle_command envSilent stUninit
        ⟨2, "send_message",
         some (Json.obj [("channel_id", Json.str "5"), ("content", Json.str "hi")])⟩ =
      ⟨stUninit, [], { id := 2, success := false, result := none,
                       error := some "SDK not initialized" }⟩ :=
  c3_uninitialized_state_guard envSilent stUninit 1 2 none
    (Json.obj [("channel_id", Json.str "5"), ("content", Json.str "hi")])
    "5" "hi" 5 rfl rfl rfl rfl

/-- Claim C10: get_message_events succeeds in every session state
(including a state where initialize was never run), returns the queued
message events, and drains the queue, so a second consecutive
get_message_events with no intervening event returns an empty messages
list. -/
theorem c10_get_message_events_succeeds_and_drains
    (env env2 : SdkEnv) (st : BridgeState) (i1 i2 : Nat) (args1 args2 : Option Json) :
    (handle_command env st ⟨i1, "get_message_events", args1⟩).resp =
      { id := i1, success := true,
        result := some (.obj [("messages", .arr (st.messageEvents.map evJson))]),
        error := none } ∧
    (handle_command env st ⟨i1, "get_message_events", args1⟩).st =
      { st with messageEvents := [] } ∧
    (handle_command env2 (handle_command env st ⟨i1, "get_message_events", args1⟩).st
        ⟨i2, "get_message_events", args2⟩).resp =
      { id := i2, success := true,
        result := some (.obj [("messages", .arr [])]), error := none } := by
  have h1 : (handle_command env st ⟨i1, "get_message_events", args1⟩).st =
      { st with messageEvents := [] } := by
    cases h : st.messageEvents with
    | nil => simp [handle_command, dispatch, hGetMessageEvents, h]
    | cons a l => simp [handle_command, dispatch, hGetMessageEvents, h]
  refine ⟨?_, h1, ?_⟩
  · cases h : st.messageEvents with
    | nil => simp [handle_command, dispatch, hGetMessageEvents, h]
    | cons a l => simp [handle_command, dispatch, hGetMessageEvents, h]
  · rw [h1]
    simp [handle_command, dispatch, hGetMessageEvents]

/-- Claim C2 (counterexample): get_guilds is a polled asynchronous
operation; when the 15 s polling deadline elapses with the completion
flag never set (oracle: callback did not fire), the response is
success=true with an empty guild list — not the failure Response with
a timeout message that the claim requires. -/
theorem c2_counterexample_get_guilds_timeout_succeeds :
    (handle_command envSilent stReady ⟨1, "get_guilds", none⟩).resp =
      { id := 1, success := true,
        result := some (.obj [("guilds", .arr [])]), error := none } := rfl

/-- Claim C2 (amended): when the polling deadline elapses without the
completion flag being set, get_guild_channels, send_message,
set_activity, send_dm, get_lobby_messages, get_user_messages,
create_lobby, send_lobby_message, leave_lobby and create_or_join_lobby
do return a failure Response with a timeout-specific message; but the
three operations named by the claim behave differently: get_guilds
returns success with an empty guild list, connect_lobby_voice returns
success=true with connected=false, and disconnect_lobby_voice always
returns success with disconnected=true. -/
theorem c2_amended_timeout_responses (st : BridgeState) (i : Nat)
    (hinit : st.initialized = true) (hptr : ¬ st.clientPtr = 0) :
    (handle_command envSilent st ⟨i, "get_guild_channels",
        some (.obj [("guild_id", .str "5")])⟩).resp =
      { id := i, success := false, result := none,
        error := some "Timeout for guild 5" } ∧
    (handle_command envSilent st ⟨i, "send_message",
        some (.obj [("channel_id", .str "5"), ("content", .str "hi")])⟩).resp =
      { id := i, success := false, result := none,
        error := some "Message send timeout" } ∧
    (handle_command envSilent st ⟨i, "set_activity", some (.obj [])⟩).resp =
      { id := i, success := false, result := none,
        error := some "Activity update timeout" } ∧
    (handle_command envSilent st ⟨i, "send_dm",
        some (.obj [("recipient_id", .str "5"), ("content", .str "hi")])⟩).resp =
      { id := i, success := false, result := none,
        error := some "DM send timeout" } ∧
    (handle_command envSilent st ⟨i, "get_lobby_messages",
        some (.obj [("lobby_id", .str "5")])⟩).resp =
      { id := i, success := false, result := none,
        error := some "Message fetch timeout" } ∧
    (handle_command envSilent st ⟨i, "get_user_messages",
        some (.obj [("recipient_id", .str "5")])⟩).resp =
      { id := i, success := false, result := none,
        error := some "Message fetch timeout" } ∧
    (handle_command envSilent st ⟨i, "create_lobby",
        some (.obj [("secret", .str "s")])⟩).resp =
      { id := i, success := false, result := none,
        error := some "Lobby creation timeout" } ∧
    (handle_command envSilent st ⟨i, "send_lobby_message",
        some (.obj [("lobby_id", .str "5"), ("content", .str "hi")])⟩).resp =
      { id := i, success := false, result := none,
        error := some "Send message timeout - callback never fired" } ∧
    (handle_command envSilent st ⟨i, "leave_lobby",
        some (.obj [("lobby_id", .str "5")])⟩).resp =
      { id := i, success := false, result := none,
        error := some "Leave lobby timeout" } ∧
    (handle_command envSilent st ⟨i, "create_or_join_lobby",
        some (.obj [("secret", .str "s")])⟩).resp =
      { id := i, success := false, result := none,
        error := some "Lobby operation timeout" } ∧
    (handle_command envSilent st ⟨i, "get_guilds", none⟩).resp =
      { id := i, success := true,
        result := some (.obj [("guilds", .arr [])]), error := none } ∧
    (handle_command envSilent st ⟨i, "connect_lobby_voice",
        some (.obj [("lobby_id", .str "5")])⟩).resp =
      { id := i, success := true,
        result := some (.obj [("connected", .bool false), ("callback_fired", .bool false)]),
        error := none } ∧
    (handle_command envSilent st ⟨i, "disconnect_lobby_voice",
        some (.obj [("lobby_id", .str "5")])⟩).resp =
      { id := i, success := true,
        result := some (.obj [("disconnected", .bool true)]), error := none } := by
  obtain ⟨cp, tk, ini, cs, ca, me⟩ := st
  dsimp only at hinit hptr
  subst hinit
  cases cp with
  | zero => exact absurd rfl hptr
  | succ n =>
      exact ⟨rfl, rfl, rfl, rfl, rfl, rfl, rfl, rfl, rfl, rfl, rfl, rfl, rfl⟩

theorem c2_witness :
    (handle_command envSilent stReady ⟨1, "get_guild_channels",
        some (.obj [("guild_id", .str "5")])⟩).resp =
      { id := 1, success := false, result := none,
        error := some "Timeout for guild 5" } ∧
    (handle_command envSilent stReady ⟨1, "send_message",
        some (.obj [("channel_id", .str "5"), ("content", .str "hi")])⟩).resp =
      { id := 1, success := false, result := none,
        error := some "Message send timeout" } ∧
    (handle_command envSilent stReady ⟨1, "set_activity", some (.obj [])⟩).resp =
      { id := 1, success := false, result := none,
        error := some "Activity update timeout" } ∧
    (handle_command envSilent stReady ⟨1, "send_dm",
        some (.obj [("recipient_id", .str "5"), ("content", .str "hi")])⟩).resp =
      { id := 1, success := false, result := none,
        error := some "DM send timeout" } ∧
    (handle_command envSilent stReady ⟨1, "get_lobby_messages",
        some (.obj [("lobby_id", .str "5")])⟩).resp =
      { id := 1, success := false, result := none,
        error := some "Message fetch timeout" } ∧
    (handle_command envSilent stReady ⟨1, "get_user_messages",
        some (.obj [("recipient_id", .str "5")])⟩).resp =
      { id := 1, success := false, result := none,
        error := some "Message fetch timeout" } ∧
    (handle_command envSilent stReady ⟨1, "create_lobby",
        some (.obj [("secret", .str "s")])⟩).resp =
      { id := 1, success := false, result := none,
        error := some "Lobby creation timeout" } ∧
    (handle_command envSilent stReady ⟨1, "send_lobby_message",
        some (.obj [("lobby_id", .str "5"), ("content", .str "hi")])⟩).resp =
      { id := 1, success := false, result := none,
        error := some "Send message timeout - callback never fired" } ∧
    (handle_command envSilent stReady ⟨1, "leave_lobby",
        some (.obj [("lobby_id", .str "5")])⟩).resp =
      { id := 1, success := false, result := none,
        error := some "Leave lobby timeout" } ∧
    (handle_command envSilent stReady ⟨1, "create_or_join_lobby",
        some (.obj [("secret", .str "s")])⟩).resp =
      { id := 1, success := false, result := none,
        error := some "Lobby operation timeout" } ∧
    (handle_command envSilent stReady ⟨1, "get_guilds", none⟩).resp =
      { id := 1, success := true,
        result := some (.obj [("guilds", .arr [])]), error := none } ∧
    (handle_command envSilent stReady ⟨1, "connect_lobby_voice",
        some (.obj [("lobby_id", .str "5")])⟩).resp =
      { id := 1, success := true,
        result := some (.obj [("connected", .bool false), ("callback_fired", .bool false)]),
        error := none } ∧
    (handle_command envSilent stReady ⟨1, "disconnect_lobby_voice",
        some (.obj [("lobby_id", .str "5")])⟩).resp =
      { id := 1, success := true,
        result := some (.obj [("disconnected", .bool true)]), error := none } :=
  c2_amended_timeout_responses stReady 1 rfl (by decide)

/-- Claim C5 (counterexample): set_mute with its required `mute`
argument missing does not return an immediate failure Response: it
substitutes the default `false`, calls the SDK setter, and reports
success with muted=false. -/
theorem c5_counterexample_set_mute_defaults_and_calls_sdk :
    handle_command envSilent stReady ⟨1, "set_mute", some (.obj [])⟩ =
      ⟨stReady, [.setSelfMuteAll false, .runCallbacks],
       { id := 1, success := true, result := some (.obj [("muted", .bool false)]),
         error := none }⟩ := rfl

/-- Claim C5 (amended): commands whose required argument is decoded
through an id/args check (send_message missing channel_id,
get_guild_channels with a non-numeric guild_id, send_lobby_message
with a missing/zero lobby_id) do return an immediate failure Response
with no external-SDK call; but create_lobby without secret, set_mute
without mute, and set_activity without state/details substitute
defaults ("" or false) and proceed to call the external SDK, and
send_lobby_message without content likewise proceeds with "". -/
theorem c5_amended_validation_behavior (st : BridgeState) (i : Nat)
    (hinit : st.initialized = true) (hptr : ¬ st.clientPtr = 0) :
    handle_command envSilent st ⟨i, "send_message", some (.obj [("content", .str "hi")])⟩ =
      ⟨st, [], { id := i, success := false, result := none,
                 error := some "Missing channel_id or content" }⟩ ∧
    handle_command envSilent st ⟨i, "get_guild_channels",
        some (.obj [("guild_id", .str "abc")])⟩ =
      ⟨st, [], { id := i, success := false, result := none,
                 error := some "Invalid guild_id" }⟩ ∧
    handle_command envSilent st ⟨i, "send_lobby_message", some (.obj [("content", .str "hi")])⟩ =
      ⟨st, [], { id := i, success := false, result := none,
                 error := some "Invalid lobby ID" }⟩ ∧
    handle_command envSilent st ⟨i, "set_mute", some (.obj [])⟩ =
      ⟨st, [.setSelfMuteAll false, .runCallbacks],
       { id := i, success := true, result := some (.obj [("muted", .bool false)]),
         error := none }⟩ ∧
    (handle_command envSilent st ⟨i, "create_lobby", some (.obj [])⟩).calls =
      [.createOrJoinLobbyWithMetadata "", .runCallbacks] ∧
    (handle_command envSilent st ⟨i, "set_activity", some (.obj [])⟩).calls =
      [.updateRichPresence, .runCallbacks] ∧
    (handle_command envSilent st ⟨i, "send_lobby_message",
        some (.obj [("lobby_id", .str "5")])⟩).calls =
      [.sendLobbyMessage 5 "", .runCallbacks] := by
  obtain ⟨cp, tk, ini, cs, ca, me⟩ := st
  dsimp only at hinit hptr
  subst hinit
  cases cp with
  | zero => exact absurd rfl hptr
  | succ n => exact ⟨rfl, rfl, rfl, rfl, rfl, rfl, rfl⟩

theorem c5_witness :
    handle_command envSilent stReady ⟨1, "send_message", some (.obj [("content", .str "hi")])⟩ =
      ⟨stReady, [], { id := 1, success := false, result := none,
                      error := some "Missing channel_id or content" }⟩ ∧
    handle_command envSilent stReady ⟨1, "get_guild_channels",
        some (.obj [("guild_id", .str "abc")])⟩ =
      ⟨stReady, [], { id := 1, success := false, result := none,
                      error := some "Invalid guild_id" }⟩ ∧
    handle_command envSilent stReady ⟨1, "send_lobby_message",
        some (.obj [("content", .str "hi")])⟩ =
      ⟨stReady, [], { id := 1, success := false, result := none,
                      error := some "Invalid lobby ID" }⟩ ∧
    handle_command envSilent stReady ⟨1, "set_mute", some (.obj [])⟩ =
      ⟨stReady, [.setSelfMuteAll false, .runCallbacks],
       { id := 1, success := true, result := some (.obj [("muted", .bool false)]),
         error := none }⟩ ∧
    (handle_command envSilent stReady ⟨1, "create_lobby", some (.obj [])⟩).calls =
      [.createOrJoinLobbyWithMetadata "", .runCallbacks] ∧
    (handle_command envSilent stReady ⟨1, "set_activity", some (.obj [])⟩).calls =
      [.updateRichPresence, .runCallbacks] ∧
    (handle_command envSilent stReady ⟨1, "send_lobby_message",
        some (.obj [("lobby_id", .str "5")])⟩).calls =
      [.sendLobbyMessage 5 "", .runCallbacks] :=
  c5_amended_validation_behavior stReady 1 rfl (by decide)

/-- Claim C6 (code bug): the status-wait loop updates `last_status`
before testing `status == 0 && last_status == 2`, so after the update
the test compares `status` with itself and `error_4004_seen` can never
become true: the loop's error-4004 outcome is dead code for every
status trajectory.  Consequently, on a 2 to 0 regression that never
recovers, initialize returns the generic connection-timeout message
("SDK connection timeout - stuck at status=0") instead of the
error-4004 fatal-initialization message the source's own comments say
it should report. -/
theorem c6_regression_yields_generic_timeout_never_4004 :
    (∀ (reads : List Int) (cur : Int), (connectWait reads cur).isErr4004 = false) ∧
    (init_discord_sdk { envSilent with statusTrajectory := [1, 2, 0, 0] } stUninit
        "storedtokenstoredtokenstoredtoken" 8).result =
      .error "SDK connection timeout - stuck at status=0" := by
  constructor
  · have key : ∀ (reads : List Int) (last cur : Int),
        (connectWaitGo reads last false cur).isErr4004 = false := by
      intro reads
      induction reads with
      | nil => intro last cur; rfl
      | cons s rest ih =>
          intro last cur
          unfold connectWaitGo
          dsimp only
          have hlast2 : (if s ≠ last then s else last) = s := by
            by_cases h : s = last
            · simp [h]
            · simp [h]
          rw [hlast2]
          by_cases h3 : s ≥ 3
          · simp [h3, ConnectOutcome.isErr4004]
          · have hseen : (if s = 0 ∧ s = 2 then true else false) = false := by
              by_cases h0 : s = 0
              · subst h0; decide
              · simp [h0]
            rw [if_neg h3, hseen]
            exact ih s s
    intro reads cur
    exact key reads 0 cur
  · rfl

/-- Claim C7 (counterexample): the get_lobby success payload encodes
the lobby snowflake as a raw JSON number ("lobby_id": 5), not as a
JSON string, contradicting the claim that every 64-bit snowflake in a
success payload is string-encoded. -/
theorem c7_counterexample_get_lobby_number_id :
    (handle_command { envSilent with getLobbyHandle := some [] } stReady
        ⟨1, "get_lobby", some (.obj [("lobby_id", .str "5")])⟩).resp =
      { id := 1, success := true,
        result := some (.obj [("lobby_id", .num 5), ("metadata", .obj [])]),
        error := none } := rfl

/-- Claim C7 (amended): snowflake identifiers placed into success
payloads are encoded as JSON strings — guild ids in get_guilds,
message_id in send_dm, and the id/author_id/channel_id fields of every
message entry — with one exception: get_lobby emits its lobby_id as a
raw JSON number. -/
theorem c7_amended_snowflake_encoding
    (env0 : SdkEnv) (st : BridgeState) (i mid lid : Nat) (lidStr : String)
    (gs : List (Nat × String)) (md : List (String × String))
    (hinit : st.initialized = true) (hptr : ¬ st.clientPtr = 0)
    (hl0 : ¬ lid = 0) (hparse : parseU64 lidStr = some lid) :
    ((handle_command { env0 with guildsCb := some (some gs) } st
        ⟨i, "get_guilds", none⟩).resp.result =
      some (.obj [("guilds", .arr (gs.map guildJson))]) ∧
     ∀ g ∈ gs, (guildJson g).getField "id" = some (.str (toString g.1))) ∧
    ((handle_command { env0 with dmCb := some mid } st
        ⟨i, "send_dm",
         some (.obj [("recipient_id", .str "5"), ("content", .str "hi")])⟩).resp.result =
      some (.obj [("message_id", .str (toString mid))])) ∧
    (∀ m : MsgRec,
      (msgJson m).getField "id" = some (.str (toString m.id)) ∧
      (msgJson m).getField "author_id" = some (.str (toString m.authorId)) ∧
      (msgJson m).getField "channel_id" = some (.str (toString m.channelId))) ∧
    ((handle_command { env0 with getLobbyHandle := some md } st
        ⟨i, "get_lobby", some (.obj [("lobby_id", .str lidStr)])⟩).resp.result =
      some (.obj [("lobby_id", .num (lid : Int)),
                  ("metadata", .obj (md.map (fun kv => (kv.1, Json.str kv.2))))])) := by
  obtain ⟨cp, tk, ini, cs, ca, me⟩ := st
  dsimp only at hinit hptr
  subst hinit
  cases cp with
  | zero => exact absurd rfl hptr
  | succ n =>
      refine ⟨⟨?_, fun g _ => rfl⟩, rfl, fun m => ⟨rfl, rfl, rfl⟩, ?_⟩
      · simp [handle_command, dispatch, hGetGuilds]
      · simp [handle_command, dispatch, hGetLobby, numOrStrU64, Json.asNatNum,
              Json.asStr, Json.getField, List.lookup, hparse, hl0]

theorem c7_witness :
    ((handle_command { envSilent with guildsCb := some (some [(5, "g")]) } stReady
        ⟨1, "get_guilds", none⟩).resp.result =
      some (.obj [("guilds", .arr ([((5 : Nat), "g")].map guildJson))]) ∧
     ∀ g ∈ [((5 : Nat), "g")], (guildJson g).getField "id" = some (.str (toString g.1))) ∧
    ((handle_command { envSilent with dmCb := some 7 } stReady
        ⟨1, "send_dm",
         some (.obj [("recipient_id", .str "5"), ("content", .str "hi")])⟩).resp.result =
      some (.obj [("message_id", .str (toString (7 : Nat)))])) ∧
    (∀ m : MsgRec,
      (msgJson m).getField "id" = some (.str (toString m.id)) ∧
      (msgJson m).getField "author_id" = some (.str (toString m.authorId)) ∧
      (msgJson m).getField "channel_id" = some (.str (toString m.channelId))) ∧
    ((handle_command { envSilent with getLobbyHandle := some [] } stReady
        ⟨1, "get_lobby", some (.obj [("lobby_id", .str "6")])⟩).resp.result =
      some (.obj [("lobby_id", .num ((6 : Nat) : Int)),
                  ("metadata", .obj (([] : List (String × String)).map
                    (fun kv => (kv.1, Json.str kv.2))))])) :=
  c7_amended_snowflake_encoding envSilent stReady 1 7 6 "6" [(5, "g")] []
    rfl (by decide) (by decide) rfl
